import Mathlib

/-!
Shallow embedding of `src/python_modules/dagster/dagster/core/storage/fs_io_manager.py`.

The module defines two filesystem IO managers that pickle step-output values to
paths under a configured base directory:

* `PickledObjectFilesystemIOManager` resolves paths automatically from the
  run-scoped output identifier (run id, step key, output name);
* `CustomPathPickledObjectFilesystemIOManager` resolves paths from a `path`
  entry in the output's metadata and returns an `AssetMaterialization`.

The filesystem is modelled as an explicit state (`FS`) threaded through the
operations; Python exceptions become values of `StorageError`.  The pickle
codec is an external, opaque, reversible byte-encoder, so file contents are
modelled directly as the stored Python value (`PyObj`): encoding is the
identity on this abstract representation.  Path arithmetic (`os.path.join`,
`os.path.dirname`, `os.path.abspath`) is embedded following the POSIX
implementation of Python's `posixpath` module.
-/

namespace FsIO

/-- A Python value, as far as this component can observe it: metadata entries
and pickled objects.  `noneV` is Python's `None` (e.g. `dict.get` on a missing
key). -/
inductive PyObj where
  | str : String → PyObj
  | int : Int → PyObj
  | list : List PyObj → PyObj
  | noneV : PyObj

/-- Errors this component can raise.  `missingMetadata` models the
`CheckError` from `check.str_param` when the `path` metadata entry is absent
or not a string (the spec's `MissingMetadataError`); `notFound` models the
`FileNotFoundError` propagated from `open` on a missing file (the spec's
`NotFoundError`). -/
inductive StorageError where
  | missingMetadata : StorageError
  | notFound : StorageError
deriving DecidableEq, Repr

/-- `b.startswith("/")` in Python, computed on the character list. -/
def startsWithSep (b : String) : Bool :=
  b.data.head? == some '/'

/-- `a.endswith("/")` in Python, computed on the character list. -/
def endsWithSep (a : String) : Bool :=
  a.data.getLast? == some '/'

/-- One step of Python's `posixpath.join`: fold `b` onto the accumulated
`path`.  An absolute component resets the path; otherwise a separator is
inserted unless the accumulated path is empty or already ends in one. -/
def joinTwo (path b : String) : String :=
  if startsWithSep b then b
  else if path.data.isEmpty || endsWithSep path then path ++ b
  else path ++ "/" ++ b

/-- Python's `os.path.join(a, *ps)` (POSIX). -/
def osPathJoin (a : String) (ps : List String) : String :=
  ps.foldl joinTwo a

/-- `p[:p.rfind('/') + 1]`: the prefix of `p` up to and including the last
separator; empty when `p` has no separator. -/
def headUpToLastSep (p : List Char) : List Char :=
  (p.reverse.dropWhile (fun c => !(c == '/'))).reverse

/-- Python's `os.path.dirname` (POSIX): keep the head up to the last
separator, then strip trailing separators unless the head is all separators. -/
def dirname (p : String) : String :=
  let head := headUpToLastSep p.data
  if !head.isEmpty && !(head.all (fun c => c == '/')) then
    ⟨(head.reverse.dropWhile (fun c => c == '/')).reverse⟩
  else
    ⟨head⟩

/-- The number of leading separators `posixpath.normpath` preserves: two for
a path starting with exactly two slashes, one for any other absolute path,
zero otherwise. -/
def initialSlashes (p : String) : Nat :=
  match p.data with
  | '/' :: '/' :: '/' :: _ => 1
  | '/' :: '/' :: _ => 2
  | '/' :: _ => 1
  | _ => 0

/-- The component-accumulation step of `posixpath.normpath`: drop empty and
`.` components, collapse `..` against a previous real component. -/
def normStep (isl : Nat) (acc : List String) (comp : String) : List String :=
  if comp = "" ∨ comp = "." then acc
  else if comp ≠ ".." ∨ (isl = 0 ∧ acc = []) ∨ acc.getLast? = some ".." then
    acc ++ [comp]
  else if acc ≠ [] then acc.dropLast
  else acc

/-- Python's `posixpath.normpath`. -/
def normpath (path : String) : String :=
  if path = "" then "."
  else
    let isl := initialSlashes path
    let comps := path.split (fun c => c == '/')
    let newComps := comps.foldl (normStep isl) []
    let res := String.mk (List.replicate isl '/') ++ String.intercalate "/" newComps
    if res = "" then "." else res

/-- Python's `posixpath.isabs`. -/
def isabs (p : String) : Bool :=
  startsWithSep p

/-- Python's `os.path.abspath` (POSIX), with the process working directory
passed explicitly. -/
def abspath (cwd p : String) : String :=
  normpath (if isabs p then p else joinTwo cwd p)

/-- The filesystem state: files with their (decoded) contents, and the set of
directories that exist.  Paths are the exact strings the component computes. -/
structure FS where
  files : List (String × PyObj)
  dirs : List String

/-- Content of the file at `p`, if it exists: the `open(p, "rb")` +
`pickle.load` read path. -/
def FS.lookupFile (fs : FS) (p : String) : Option PyObj :=
  (fs.files.find? (fun e => e.1 == p)).map (fun e => e.2)

/-- `open(p, "wb")` + `pickle.dump(v)`: truncate and replace whatever was at
`p` with the encoding of `v`. -/
def FS.writeFile (fs : FS) (p : String) (v : PyObj) : FS :=
  { fs with files := (p, v) :: fs.files.filter (fun e => !(e.1 == p)) }

/-- Modelled from the spec: `dagster.utils.mkdir_p` (the directory-creation
utility, an external collaborator whose source is not in `src/`) "ensures the
parent directory chain exists (idempotent create)".  It only adds a directory
entry, never touching files. -/
def mkdir_p (fs : FS) (d : String) : FS :=
  if d ∈ fs.dirs then fs else { fs with dirs := d :: fs.dirs }

/-- Modelled from the spec: `dagster.check.str_param` (whose source is not in
`src/`) applied to `metadata.get("path")` — per §7, a custom-path call
"invoked without a `path` metadata entry" (absent or not a string) fails with
`MissingMetadataError`, surfaced immediately. -/
def str_param (v : Option PyObj) : Except StorageError String :=
  match v with
  | some (PyObj.str s) => Except.ok s
  | _ => Except.error StorageError.missingMetadata

/-- Modelled from the spec: the `OutputContext` boundary of §6 — "an
OutputContext exposing a run-scoped output identifier, a metadata mapping, a
pipeline/step/output naming triple, and a logging sink" (the logging sink is
an external side channel and is not represented). -/
structure OutputContext where
  run_id : String
  step_key : String
  name : String
  pipeline_name : String
  metadata : List (String × PyObj)

/-- Modelled from the spec: `get_run_scoped_output_identifier` (context code
not in `src/`) returns "the ordered components of the run-scoped identifier
(run id, step key, output name)". -/
def OutputContext.get_run_scoped_output_identifier (context : OutputContext) :
    List String :=
  [context.run_id, context.step_key, context.name]

/-- Modelled from the spec: the `InputContext` boundary of §6 — "an
InputContext exposing the corresponding upstream OutputContext". -/
structure InputContext where
  upstream_output : OutputContext

/-- `metadata.get(k)` on the metadata mapping: `None` (here `Option.none`)
when the key is absent. -/
def metadataGet (m : List (String × PyObj)) (k : String) : Option PyObj :=
  (m.find? (fun e => e.1 == k)).map (fun e => e.2)

/-- The materialization record returned by the custom-path variant's
`handle_output`: `AssetMaterialization(asset_key=AssetKey([...]),
metadata_entries=[EventMetadataEntry.fspath(abspath)])`, with the fspath
metadata entry represented by its path string. -/
structure AssetMaterialization where
  asset_key : List String
  fspath : String
deriving DecidableEq, Repr

/-- `PickledObjectFilesystemIOManager`: the auto-path variant. -/
structure PickledObjectFilesystemIOManager where
  base_dir : String
  write_mode : String
  read_mode : String
deriving DecidableEq, Repr

namespace PickledObjectFilesystemIOManager

/-- `__init__`: stores the base directory and the fixed binary modes. -/
def init (base_dir : String) : PickledObjectFilesystemIOManager :=
  { base_dir := base_dir, write_mode := "wb", read_mode := "rb" }

/-- `_get_path`: `os.path.join(self.base_dir, *keys)` with `keys` the
run-scoped output identifier of the context. -/
def get_path (self : PickledObjectFilesystemIOManager)
    (context : OutputContext) : String :=
  osPathJoin self.base_dir context.get_run_scoped_output_identifier

/-- `handle_output`: resolve the path, ensure the parent directory exists,
pickle `obj` to the file.  Returns `none`: no `AssetMaterialization` is
emitted (Python implicitly returns `None`). -/
def handle_output (self : PickledObjectFilesystemIOManager)
    (context : OutputContext) (obj : PyObj) (fs : FS) :
    FS × Except StorageError (Option AssetMaterialization) :=
  let filepath := self.get_path context
  let fs1 := mkdir_p fs (dirname filepath)
  let fs2 := fs1.writeFile filepath obj
  (fs2, Except.ok none)

/-- `load_input`: resolve the upstream output's path and unpickle the file;
`open` raises `FileNotFoundError` when no file exists there. -/
def load_input (self : PickledObjectFilesystemIOManager)
    (context : InputContext) (fs : FS) :
    FS × Except StorageError PyObj :=
  let filepath := self.get_path context.upstream_output
  match fs.lookupFile filepath with
  | some v => (fs, Except.ok v)
  | none => (fs, Except.error StorageError.notFound)

end PickledObjectFilesystemIOManager

/-- `CustomPathPickledObjectFilesystemIOManager`: the custom-path variant. -/
structure CustomPathPickledObjectFilesystemIOManager where
  base_dir : String
  write_mode : String
  read_mode : String
deriving DecidableEq, Repr

namespace CustomPathPickledObjectFilesystemIOManager

/-- `__init__`: stores the base directory and the fixed binary modes. -/
def init (base_dir : String) : CustomPathPickledObjectFilesystemIOManager :=
  { base_dir := base_dir, write_mode := "wb", read_mode := "rb" }

/-- `_get_path`: `os.path.join(self.base_dir, path)`. -/
def get_path (self : CustomPathPickledObjectFilesystemIOManager)
    (path : String) : String :=
  osPathJoin self.base_dir [path]

/-- `handle_output`: check the `path` metadata entry is a string (before any
filesystem access), resolve the path, ensure the parent directory exists,
pickle `obj`, and return an `AssetMaterialization` whose asset key is
`[pipeline_name, step_key, name]` and whose fspath entry is the absolute form
of the resolved path. -/
def handle_output (self : CustomPathPickledObjectFilesystemIOManager)
    (cwd : String) (context : OutputContext) (obj : PyObj) (fs : FS) :
    FS × Except StorageError (Option AssetMaterialization) :=
  match str_param (metadataGet context.metadata "path") with
  | Except.error e => (fs, Except.error e)
  | Except.ok path =>
    let filepath := self.get_path path
    let fs1 := mkdir_p fs (dirname filepath)
    let fs2 := fs1.writeFile filepath obj
    (fs2, Except.ok (some
      { asset_key := [context.pipeline_name, context.step_key, context.name]
        fspath := abspath cwd filepath }))

/-- `load_input`: check the upstream output's `path` metadata entry is a
string (before any filesystem access), resolve the path, and unpickle the
file; `open` raises `FileNotFoundError` when no file exists there. -/
def load_input (self : CustomPathPickledObjectFilesystemIOManager)
    (context : InputContext) (fs : FS) :
    FS × Except StorageError PyObj :=
  match str_param (metadataGet context.upstream_output.metadata "path") with
  | Except.error e => (fs, Except.error e)
  | Except.ok path =>
    let filepath := self.get_path path
    match fs.lookupFile filepath with
    | some v => (fs, Except.ok v)
    | none => (fs, Except.error StorageError.notFound)

end CustomPathPickledObjectFilesystemIOManager

/-- Modelled from the spec: resolution of the `base_dir` configuration field
`Field(StringSource, default_value=".", is_required=False)` by the external
configuration-schema machinery — "string, default `.`" (§4.4/§6).  `cfg` is
the user-supplied value, `none` when absent. -/
def resolveBaseDirField (cfg : Option String) : String :=
  cfg.getD "."

/-- `fs_io_manager`: the factory returning a `PickledObjectFilesystemIOManager`
bound to `init_context.resource_config["base_dir"]`. -/
def fs_io_manager (cfg : Option String) : PickledObjectFilesystemIOManager :=
  PickledObjectFilesystemIOManager.init (resolveBaseDirField cfg)

/-- `custom_path_fs_io_manager`: the factory returning a
`CustomPathPickledObjectFilesystemIOManager` bound to
`init_context.resource_config["base_dir"]`. -/
def custom_path_fs_io_manager (cfg : Option String) :
    CustomPathPickledObjectFilesystemIOManager :=
  CustomPathPickledObjectFilesystemIOManager.init (resolveBaseDirField cfg)


/-- A path segment that is nonempty and contains no separator character. -/
def PlainSegment (s : String) : Prop :=
  s.data ≠ [] ∧ ('/' : Char) ∉ s.data

/-- A string that is nonempty and neither begins nor ends with a separator
character. -/
def SepTrimmed (s : String) : Prop :=
  s.data ≠ [] ∧ s.data.head? ≠ some '/' ∧ s.data.getLast? ≠ some '/'

/-! ### Helper lemmas -/

/-- `mkdir_p` never touches the file table. -/
theorem mkdir_p_files (fs : FS) (d : String) : (mkdir_p fs d).files = fs.files := by
  unfold mkdir_p
  split <;> rfl

/-- Reading back the path just written yields the value just written. -/
theorem lookupFile_writeFile (fs : FS) (p : String) (v : PyObj) :
    (fs.writeFile p v).lookupFile p = some v := by
  simp [FS.writeFile, FS.lookupFile, List.find?]

/-- `lookupFile` only depends on the file table. -/
theorem lookupFile_mkdir_p (fs : FS) (d p : String) :
    (mkdir_p fs d).lookupFile p = fs.lookupFile p := by
  unfold FS.lookupFile
  rw [mkdir_p_files]

/-- Character-list form of one `posixpath.join` step, for a component that is
not absolute. -/
theorem joinTwo_data (a b : String) (hb : b.data.head? ≠ some '/') :
    (joinTwo a b).data =
      (if (a.data.isEmpty || endsWithSep a) = true then a.data
       else a.data ++ ['/']) ++ b.data := by
  have h1 : startsWithSep b = false := by
    unfold startsWithSep
    exact beq_eq_false_iff_ne.mpr hb
  unfold joinTwo
  rw [h1]
  by_cases h2 : (a.data.isEmpty || endsWithSep a) = true
  · simp only [Bool.false_eq_true, if_false, h2, if_true]
    rfl
  · simp only [Bool.false_eq_true, if_false, h2]
    rfl

/-- A `posixpath.join` step with a nonempty non-absolute component yields a
nonempty path ending in that component's last character. -/
theorem joinTwo_data_getLast (a b : String) (hb : b.data.head? ≠ some '/')
    (hbne : b.data ≠ []) :
    (joinTwo a b).data ≠ [] ∧ (joinTwo a b).data.getLast? = b.data.getLast? := by
  rw [joinTwo_data a b hb]
  constructor
  · simp [hbne]
  · rw [List.getLast?_append_of_ne_nil _ hbne]

/-- A `posixpath.join` step onto a nonempty path not ending in a separator
inserts exactly one separator. -/
theorem joinTwo_data_cons (a b : String) (ha : a.data ≠ [])
    (ha2 : a.data.getLast? ≠ some '/') (hb : b.data.head? ≠ some '/') :
    (joinTwo a b).data = a.data ++ '/' :: b.data := by
  rw [joinTwo_data a b hb]
  have h1 : a.data.isEmpty = false := by simp [ha]
  have h2 : endsWithSep a = false := by
    unfold endsWithSep
    exact beq_eq_false_iff_ne.mpr ha2
  rw [h1, h2]
  simp

/-- A separator-free list's head is not a separator. -/
theorem head?_ne_sep {l : List Char} (h' : '/' ∉ l) : l.head? ≠ some '/' := by
  cases l with
  | nil => simp
  | cons c cs =>
    simp only [List.head?_cons, ne_eq, Option.some.injEq]
    intro hc
    subst hc
    exact h' (List.mem_cons_self _ _)

/-- A separator-free list's last element is not a separator. -/
theorem getLast?_ne_sep {l : List Char} (h : '/' ∉ l) :
    l.getLast? ≠ some '/' := by
  intro hc
  rw [List.getLast?_eq_some_iff] at hc
  obtain ⟨l', rfl⟩ := hc
  exact h (by simp)

/-- Two separator-free prefixes followed by a separator split a list
uniquely. -/
theorem sepSplit {a : List Char} : ∀ {b x y : List Char}, '/' ∉ a → '/' ∉ b →
    a ++ '/' :: x = b ++ '/' :: y → a = b ∧ x = y := by
  induction a with
  | nil =>
    intro b x y _ hb h
    cases b with
    | nil => simpa using h
    | cons d ds =>
      simp only [List.nil_append, List.cons_append, List.cons.injEq] at h
      exact absurd (h.1 ▸ List.mem_cons_self d ds) hb
  | cons c cs ih =>
    intro b x y ha hb h
    cases b with
    | nil =>
      simp only [List.nil_append, List.cons_append, List.cons.injEq] at h
      exact absurd (h.1 ▸ List.mem_cons_self c cs) ha
    | cons d ds =>
      simp only [List.cons_append, List.cons.injEq] at h
      have ha' : '/' ∉ cs := fun hm => ha (List.mem_cons_of_mem _ hm)
      have hb' : '/' ∉ ds := fun hm => hb (List.mem_cons_of_mem _ hm)
      obtain ⟨h1, h2, h3⟩ := And.intro h.1 (ih ha' hb' h.2)
      exact ⟨by rw [h1, h2], h3⟩

/-- Character-list shape of the automatically resolved path: for components
that are nonempty and do not begin or end with a separator, the three
identifier components appear separator-delimited after the joined base. -/
theorem autoPath_shape (base r s o : String)
    (hr : r.data ≠ []) (hr1 : r.data.head? ≠ some '/')
    (hr2 : r.data.getLast? ≠ some '/')
    (hs : s.data ≠ []) (hs1 : s.data.head? ≠ some '/')
    (hs2 : s.data.getLast? ≠ some '/')
    (ho1 : o.data.head? ≠ some '/') :
    (osPathJoin base [r, s, o]).data =
      (joinTwo base r).data ++ '/' :: (s.data ++ '/' :: o.data) := by
  have e1 : osPathJoin base [r, s, o] = joinTwo (joinTwo (joinTwo base r) s) o := rfl
  obtain ⟨a1ne, a1last⟩ := joinTwo_data_getLast base r hr1 hr
  have ha1last : (joinTwo base r).data.getLast? ≠ some '/' := by
    rw [a1last]; exact hr2
  have e2 : (joinTwo (joinTwo base r) s).data =
      (joinTwo base r).data ++ '/' :: s.data :=
    joinTwo_data_cons _ s a1ne ha1last hs1
  obtain ⟨a2ne, a2last⟩ := joinTwo_data_getLast (joinTwo base r) s hs1 hs
  have ha2last : (joinTwo (joinTwo base r) s).data.getLast? ≠ some '/' := by
    rw [a2last]; exact hs2
  have e3 : (joinTwo (joinTwo (joinTwo base r) s) o).data =
      (joinTwo (joinTwo base r) s).data ++ '/' :: o.data :=
    joinTwo_data_cons _ o a2ne ha2last ho1
  rw [e1, e3, e2]
  simp [List.append_assoc]

/-- Strings with equal character lists are equal. -/
theorem string_data_inj {a b : String} (h : a.data = b.data) : a = b := by
  cases a
  cases b
  exact congrArg String.mk (by simpa using h)


/-- Equation for the auto variant's `handle_output`. -/
theorem handle_output_fs (self : PickledObjectFilesystemIOManager)
    (context : OutputContext) (obj : PyObj) (fs : FS) :
    self.handle_output context obj fs =
      ((mkdir_p fs (dirname (self.get_path context))).writeFile
        (self.get_path context) obj, Except.ok none) := rfl

/-- The auto variant's `load_input` when a file exists at the resolved path. -/
theorem load_input_found (self : PickledObjectFilesystemIOManager)
    (context : InputContext) (fs : FS) (v : PyObj)
    (h : fs.lookupFile (self.get_path context.upstream_output) = some v) :
    self.load_input context fs = (fs, Except.ok v) := by
  simp only [PickledObjectFilesystemIOManager.load_input, h]

/-- The auto variant's `load_input` when no file exists at the resolved
path. -/
theorem load_input_missing (self : PickledObjectFilesystemIOManager)
    (context : InputContext) (fs : FS)
    (h : fs.lookupFile (self.get_path context.upstream_output) = none) :
    self.load_input context fs = (fs, Except.error StorageError.notFound) := by
  simp only [PickledObjectFilesystemIOManager.load_input, h]

/-- Equation for the custom variant's `handle_output` when the `path`
metadata entry is a string. -/
theorem custom_handle_output_ok
    (self : CustomPathPickledObjectFilesystemIOManager) (cwd : String)
    (context : OutputContext) (obj : PyObj) (fs : FS) (p : String)
    (hp : metadataGet context.metadata "path" = some (PyObj.str p)) :
    self.handle_output cwd context obj fs =
      ((mkdir_p fs (dirname (self.get_path p))).writeFile (self.get_path p) obj,
       Except.ok (some
         { asset_key := [context.pipeline_name, context.step_key, context.name]
           fspath := abspath cwd (self.get_path p) })) := by
  simp only [CustomPathPickledObjectFilesystemIOManager.handle_output, hp,
    str_param]

/-- The custom variant's `load_input` when the `path` metadata entry is a
string and a file exists at the resolved path. -/
theorem custom_load_input_found
    (self : CustomPathPickledObjectFilesystemIOManager)
    (context : InputContext) (fs : FS) (p : String) (v : PyObj)
    (hp : metadataGet context.upstream_output.metadata "path" =
      some (PyObj.str p))
    (h : fs.lookupFile (self.get_path p) = some v) :
    self.load_input context fs = (fs, Except.ok v) := by
  simp only [CustomPathPickledObjectFilesystemIOManager.load_input, hp,
    str_param, h]

/-- The custom variant's `load_input` when the `path` metadata entry is a
string but no file exists at the resolved path. -/
theorem custom_load_input_missing
    (self : CustomPathPickledObjectFilesystemIOManager)
    (context : InputContext) (fs : FS) (p : String)
    (hp : metadataGet context.upstream_output.metadata "path" =
      some (PyObj.str p))
    (h : fs.lookupFile (self.get_path p) = none) :
    self.load_input context fs = (fs, Except.error StorageError.notFound) := by
  simp only [CustomPathPickledObjectFilesystemIOManager.load_input, hp,
    str_param, h]

/-- `check.str_param` rejects anything that is not a string. -/
theorem str_param_error (v : Option PyObj)
    (h : ∀ s, v ≠ some (PyObj.str s)) :
    str_param v = Except.error StorageError.missingMetadata := by
  cases v with
  | none => rfl
  | some x =>
    cases x with
    | str s => exact absurd rfl (h s)
    | int n => rfl
    | list l => rfl
    | noneV => rfl

/-- `String.append` acts as list append on the character data. -/
theorem data_append (a b : String) : (a ++ b).data = a.data ++ b.data := rfl

/-- Character data of the separator string. -/
theorem sep_data : ("/" : String).data = ['/'] := rfl

/-! ### Claim theorems -/

/-- **C3**: the auto variant's `handle_output` returns nothing (`none`: no
materialization record is emitted), while the custom variant's
`handle_output` returns exactly one materialization record, whose asset key
is the (pipelineName, stepKey, outputName) triple of the context and whose
recorded path is the absolute form of the resolved path. -/
theorem materialization_policy
    (self : PickledObjectFilesystemIOManager) (octx : OutputContext)
    (obj : PyObj) (fs : FS)
    (cself : CustomPathPickledObjectFilesystemIOManager) (cwd : String)
    (coctx : OutputContext) (obj2 : PyObj) (fs2 : FS) (p : String)
    (hp : metadataGet coctx.metadata "path" = some (PyObj.str p)) :
    (self.handle_output octx obj fs).2 = Except.ok none ∧
    (cself.handle_output cwd coctx obj2 fs2).2 =
      Except.ok (some
        { asset_key := [coctx.pipeline_name, coctx.step_key, coctx.name]
          fspath := abspath cwd (cself.get_path p) }) := by
  constructor
  · rfl
  · rw [custom_handle_output_ok cself cwd coctx obj2 fs2 p hp]

/-- Witness for `materialization_policy` on concrete inputs. -/
theorem materialization_policy_witness :
    ((PickledObjectFilesystemIOManager.init "/b").handle_output
        ⟨"r", "s", "o", "pl", []⟩ (PyObj.int 1) ⟨[], []⟩).2 = Except.ok none ∧
    ((CustomPathPickledObjectFilesystemIOManager.init "/b").handle_output
        "/cwd" ⟨"r", "s", "o", "pl", [("path", PyObj.str "f")]⟩ (PyObj.int 2)
        ⟨[], []⟩).2 =
      Except.ok (some
        { asset_key := ["pl", "s", "o"]
          fspath := abspath "/cwd"
            ((CustomPathPickledObjectFilesystemIOManager.init "/b").get_path
              "f") }) :=
  materialization_policy (PickledObjectFilesystemIOManager.init "/b")
    ⟨"r", "s", "o", "pl", []⟩ (PyObj.int 1) ⟨[], []⟩
    (CustomPathPickledObjectFilesystemIOManager.init "/b") "/cwd"
    ⟨"r", "s", "o", "pl", [("path", PyObj.str "f")]⟩ (PyObj.int 2) ⟨[], []⟩
    "f" rfl

/-- **C4**: when the context's metadata has no `path` entry, or its `path`
entry is not a string, the custom variant's `handle_output` and `load_input`
fail with the missing-metadata error and return the filesystem unchanged (no
write, no directory creation, no read). -/
theorem missing_path_metadata_error
    (cself : CustomPathPickledObjectFilesystemIOManager) (cwd : String)
    (octx : OutputContext) (obj : PyObj) (fs : FS)
    (ictx : InputContext) (fsi : FS)
    (h1 : ∀ s, metadataGet octx.metadata "path" ≠ some (PyObj.str s))
    (h2 : ∀ s, metadataGet ictx.upstream_output.metadata "path" ≠
      some (PyObj.str s)) :
    cself.handle_output cwd octx obj fs =
      (fs, Except.error StorageError.missingMetadata) ∧
    cself.load_input ictx fsi =
      (fsi, Except.error StorageError.missingMetadata) := by
  constructor
  · simp only [CustomPathPickledObjectFilesystemIOManager.handle_output,
      str_param_error _ h1]
  · simp only [CustomPathPickledObjectFilesystemIOManager.load_input,
      str_param_error _ h2]

/-- Witness for `missing_path_metadata_error`: a store with no `path` entry
and a load whose `path` entry is an integer. -/
theorem missing_path_metadata_error_witness :
    (CustomPathPickledObjectFilesystemIOManager.init "b").handle_output "/c"
        ⟨"r", "s", "o", "pl", []⟩ (PyObj.int 1) ⟨[], []⟩ =
      (⟨[], []⟩, Except.error StorageError.missingMetadata) ∧
    (CustomPathPickledObjectFilesystemIOManager.init "b").load_input
        ⟨⟨"r", "s", "o", "pl", [("path", PyObj.int 3)]⟩⟩ ⟨[], []⟩ =
      (⟨[], []⟩, Except.error StorageError.missingMetadata) :=
  missing_path_metadata_error
    (CustomPathPickledObjectFilesystemIOManager.init "b")
    "/c" ⟨"r", "s", "o", "pl", []⟩ (PyObj.int 1) ⟨[], []⟩
    ⟨⟨"r", "s", "o", "pl", [("path", PyObj.int 3)]⟩⟩ ⟨[], []⟩
    (fun s h => Option.noConfusion h)
    (fun s h => PyObj.noConfusion (Option.some.inj h))

/-- **C5**: loading an identity (auto variant) or custom path (custom
variant) at which no file exists fails with the not-found error, propagated
from the file open and leaving the filesystem unchanged. -/
theorem load_never_stored_not_found
    (self : PickledObjectFilesystemIOManager) (ictx : InputContext) (fs : FS)
    (h : fs.lookupFile (self.get_path ictx.upstream_output) = none)
    (cself : CustomPathPickledObjectFilesystemIOManager) (cictx : InputContext)
    (fsc : FS) (p : String)
    (hp : metadataGet cictx.upstream_output.metadata "path" =
      some (PyObj.str p))
    (hc : fsc.lookupFile (cself.get_path p) = none) :
    self.load_input ictx fs = (fs, Except.error StorageError.notFound) ∧
    cself.load_input cictx fsc = (fsc, Except.error StorageError.notFound) :=
  ⟨load_input_missing self ictx fs h,
   custom_load_input_missing cself cictx fsc p hp hc⟩

/-- Witness for `load_never_stored_not_found` on the empty filesystem. -/
theorem load_never_stored_not_found_witness :
    (PickledObjectFilesystemIOManager.init "b").load_input
        ⟨⟨"r", "s", "o", "pl", []⟩⟩ ⟨[], []⟩ =
      (⟨[], []⟩, Except.error StorageError.notFound) ∧
    (CustomPathPickledObjectFilesystemIOManager.init "b").load_input
        ⟨⟨"r", "s", "o", "pl", [("path", PyObj.str "f")]⟩⟩ ⟨[], []⟩ =
      (⟨[], []⟩, Except.error StorageError.notFound) :=
  load_never_stored_not_found (PickledObjectFilesystemIOManager.init "b")
    ⟨⟨"r", "s", "o", "pl", []⟩⟩ ⟨[], []⟩ rfl
    (CustomPathPickledObjectFilesystemIOManager.init "b")
    ⟨⟨"r", "s", "o", "pl", [("path", PyObj.str "f")]⟩⟩ ⟨[], []⟩ "f" rfl rfl

/-- **C8**: both factories bind the returned manager to exactly the
configured base directory, which defaults to `.` when the option is absent;
construction is a pure function of the configuration and involves no
filesystem state (no `FS` is read or produced). -/
theorem factory_base_dir (cfg : Option String) :
    (fs_io_manager cfg).base_dir = cfg.getD "." ∧
    (custom_path_fs_io_manager cfg).base_dir = cfg.getD "." ∧
    (fs_io_manager Option.none).base_dir = "." ∧
    (custom_path_fs_io_manager Option.none).base_dir = "." :=
  ⟨rfl, rfl, rfl, rfl⟩

/-- **C10**: `load_input` is read-only: for both variants and every input
context, the returned filesystem is the argument filesystem, whether the
call succeeds or fails. -/
theorem load_input_read_only
    (self : PickledObjectFilesystemIOManager) (ictx : InputContext) (fs : FS)
    (cself : CustomPathPickledObjectFilesystemIOManager) (cictx : InputContext)
    (fsc : FS) :
    (self.load_input ictx fs).1 = fs ∧ (cself.load_input cictx fsc).1 = fsc := by
  constructor
  · simp only [PickledObjectFilesystemIOManager.load_input]
    cases fs.lookupFile (self.get_path ictx.upstream_output) <;> rfl
  · simp only [CustomPathPickledObjectFilesystemIOManager.load_input]
    cases str_param (metadataGet cictx.upstream_output.metadata "path") with
    | error e => rfl
    | ok path => cases hx : fsc.lookupFile (cself.get_path path) <;> simp [hx]

/-- **C1**: round-trip — storing a value with `handle_output` and loading it
back through a context that resolves to the same path (same run-scoped
identifier for the auto variant; same `path` metadata under the same manager
for the custom variant) returns the stored value, for both variants. -/
theorem round_trip_store_load
    (self : PickledObjectFilesystemIOManager) (octx : OutputContext)
    (ictx : InputContext)
    (hid : ictx.upstream_output.get_run_scoped_output_identifier =
      octx.get_run_scoped_output_identifier)
    (obj : PyObj) (fs : FS)
    (cself : CustomPathPickledObjectFilesystemIOManager) (cwd : String)
    (coctx : OutputContext) (cictx : InputContext) (p : String)
    (hp1 : metadataGet coctx.metadata "path" = some (PyObj.str p))
    (hp2 : metadataGet cictx.upstream_output.metadata "path" =
      some (PyObj.str p))
    (obj2 : PyObj) (fs2 : FS) :
    (self.load_input ictx (self.handle_output octx obj fs).1).2 =
      Except.ok obj ∧
    (cself.load_input cictx (cself.handle_output cwd coctx obj2 fs2).1).2 =
      Except.ok obj2 := by
  constructor
  · have hpath : self.get_path ictx.upstream_output = self.get_path octx := by
      unfold PickledObjectFilesystemIOManager.get_path
      rw [hid]
    have hl : (self.handle_output octx obj fs).1.lookupFile
        (self.get_path ictx.upstream_output) = some obj := by
      rw [hpath, handle_output_fs]
      exact lookupFile_writeFile _ _ _
    rw [load_input_found self ictx _ obj hl]
  · have hl : (cself.handle_output cwd coctx obj2 fs2).1.lookupFile
        (cself.get_path p) = some obj2 := by
      rw [custom_handle_output_ok cself cwd coctx obj2 fs2 p hp1]
      exact lookupFile_writeFile _ _ _
    rw [custom_load_input_found cself cictx _ p obj2 hp2 hl]

/-- Witness for `round_trip_store_load` on concrete inputs. -/
theorem round_trip_store_load_witness :
    ((PickledObjectFilesystemIOManager.init "/b").load_input
        ⟨⟨"r", "s", "o", "pl2", []⟩⟩
        ((PickledObjectFilesystemIOManager.init "/b").handle_output
          ⟨"r", "s", "o", "pl", []⟩ (PyObj.int 7) ⟨[], []⟩).1).2 =
      Except.ok (PyObj.int 7) ∧
    ((CustomPathPickledObjectFilesystemIOManager.init "/b").load_input
        ⟨⟨"r2", "s2", "o2", "pl2", [("path", PyObj.str "f")]⟩⟩
        ((CustomPathPickledObjectFilesystemIOManager.init "/b").handle_output
          "/cwd" ⟨"r", "s", "o", "pl", [("path", PyObj.str "f")]⟩
          (PyObj.int 8) ⟨[], []⟩).1).2 =
      Except.ok (PyObj.int 8) :=
  round_trip_store_load (PickledObjectFilesystemIOManager.init "/b")
    ⟨"r", "s", "o", "pl", []⟩ ⟨⟨"r", "s", "o", "pl2", []⟩⟩ rfl
    (PyObj.int 7) ⟨[], []⟩
    (CustomPathPickledObjectFilesystemIOManager.init "/b") "/cwd"
    ⟨"r", "s", "o", "pl", [("path", PyObj.str "f")]⟩
    ⟨⟨"r2", "s2", "o2", "pl2", [("path", PyObj.str "f")]⟩⟩ "f" rfl rfl
    (PyObj.int 8) ⟨[], []⟩

/-- **C6**: overwrite semantics — after storing `v1` and then `v2` through
contexts that resolve to the same path, the file at that path holds `v2`, a
load returns `v2`, and when `v1 ≠ v2` the first value is no longer
retrievable at that path; for both variants. -/
theorem overwrite_last_write_wins
    (self : PickledObjectFilesystemIOManager) (o1 o2 : OutputContext)
    (ictx : InputContext)
    (h12 : self.get_path o1 = self.get_path o2)
    (hin : self.get_path ictx.upstream_output = self.get_path o2)
    (v1 v2 : PyObj) (fs : FS)
    (cself : CustomPathPickledObjectFilesystemIOManager) (cwd : String)
    (c1 c2 : OutputContext) (cictx : InputContext) (p : String)
    (hp1 : metadataGet c1.metadata "path" = some (PyObj.str p))
    (hp2 : metadataGet c2.metadata "path" = some (PyObj.str p))
    (hp3 : metadataGet cictx.upstream_output.metadata "path" =
      some (PyObj.str p))
    (w1 w2 : PyObj) (fsc : FS) :
    ((self.handle_output o2 v2 (self.handle_output o1 v1 fs).1).1).lookupFile
        (self.get_path o1) = some v2 ∧
    (self.load_input ictx
        (self.handle_output o2 v2 (self.handle_output o1 v1 fs).1).1).2 =
      Except.ok v2 ∧
    (v1 ≠ v2 →
      ((self.handle_output o2 v2
          (self.handle_output o1 v1 fs).1).1).lookupFile
        (self.get_path o1) ≠ some v1) ∧
    ((cself.handle_output cwd c2 w2
        (cself.handle_output cwd c1 w1 fsc).1).1).lookupFile
        (cself.get_path p) = some w2 ∧
    (cself.load_input cictx
        (cself.handle_output cwd c2 w2
          (cself.handle_output cwd c1 w1 fsc).1).1).2 = Except.ok w2 ∧
    (w1 ≠ w2 →
      ((cself.handle_output cwd c2 w2
          (cself.handle_output cwd c1 w1 fsc).1).1).lookupFile
        (cself.get_path p) ≠ some w1) := by
  have ha : ((self.handle_output o2 v2
      (self.handle_output o1 v1 fs).1).1).lookupFile
      (self.get_path o1) = some v2 := by
    rw [h12]
    conv_lhs => rw [handle_output_fs self o2]
    exact lookupFile_writeFile _ _ _
  have hc : ((cself.handle_output cwd c2 w2
      (cself.handle_output cwd c1 w1 fsc).1).1).lookupFile
      (cself.get_path p) = some w2 := by
    conv_lhs => rw [custom_handle_output_ok cself cwd c2 w2 _ p hp2]
    exact lookupFile_writeFile _ _ _
  refine ⟨ha, ?_, ?_, hc, ?_, ?_⟩
  · have hl : ((self.handle_output o2 v2
        (self.handle_output o1 v1 fs).1).1).lookupFile
        (self.get_path ictx.upstream_output) = some v2 := by
      rw [hin, ← h12]
      exact ha
    rw [load_input_found self ictx _ v2 hl]
  · intro hne heq
    rw [ha] at heq
    exact hne (Option.some.inj heq).symm
  · rw [custom_load_input_found cself cictx _ p w2 hp3 hc]
  · intro hne heq
    rw [hc] at heq
    exact hne (Option.some.inj heq).symm

/-- Witness for `overwrite_last_write_wins` on concrete inputs. -/
theorem overwrite_last_write_wins_witness :
    (((PickledObjectFilesystemIOManager.init "/b").handle_output
        ⟨"r", "s", "o", "pl", []⟩ (PyObj.int 2)
        ((PickledObjectFilesystemIOManager.init "/b").handle_output
          ⟨"r", "s", "o", "pl0", []⟩ (PyObj.int 1) ⟨[], []⟩).1).1).lookupFile
        ((PickledObjectFilesystemIOManager.init "/b").get_path
          ⟨"r", "s", "o", "pl0", []⟩) = some (PyObj.int 2) ∧
    ((PickledObjectFilesystemIOManager.init "/b").load_input
        ⟨⟨"r", "s", "o", "pl1", []⟩⟩
        ((PickledObjectFilesystemIOManager.init "/b").handle_output
          ⟨"r", "s", "o", "pl", []⟩ (PyObj.int 2)
          ((PickledObjectFilesystemIOManager.init "/b").handle_output
            ⟨"r", "s", "o", "pl0", []⟩ (PyObj.int 1) ⟨[], []⟩).1).1).2 =
      Except.ok (PyObj.int 2) ∧
    (PyObj.int 1 ≠ PyObj.int 2 →
      (((PickledObjectFilesystemIOManager.init "/b").handle_output
          ⟨"r", "s", "o", "pl", []⟩ (PyObj.int 2)
          ((PickledObjectFilesystemIOManager.init "/b").handle_output
            ⟨"r", "s", "o", "pl0", []⟩ (PyObj.int 1) ⟨[], []⟩).1).1).lookupFile
          ((PickledObjectFilesystemIOManager.init "/b").get_path
            ⟨"r", "s", "o", "pl0", []⟩) ≠ some (PyObj.int 1)) ∧
    (((CustomPathPickledObjectFilesystemIOManager.init "/b").handle_output
        "/c" ⟨"r2", "s2", "o2", "pl2", [("path", PyObj.str "f")]⟩
        (PyObj.int 4)
        ((CustomPathPickledObjectFilesystemIOManager.init "/b").handle_output
          "/c" ⟨"r1", "s1", "o1", "pl1", [("path", PyObj.str "f")]⟩
          (PyObj.int 3) ⟨[], []⟩).1).1).lookupFile
        ((CustomPathPickledObjectFilesystemIOManager.init "/b").get_path "f") =
      some (PyObj.int 4) ∧
    ((CustomPathPickledObjectFilesystemIOManager.init "/b").load_input
        ⟨⟨"r3", "s3", "o3", "pl3", [("path", PyObj.str "f")]⟩⟩
        ((CustomPathPickledObjectFilesystemIOManager.init "/b").handle_output
          "/c" ⟨"r2", "s2", "o2", "pl2", [("path", PyObj.str "f")]⟩
          (PyObj.int 4)
          ((CustomPathPickledObjectFilesystemIOManager.init "/b").handle_output
            "/c" ⟨"r1", "s1", "o1", "pl1", [("path", PyObj.str "f")]⟩
            (PyObj.int 3) ⟨[], []⟩).1).1).2 = Except.ok (PyObj.int 4) ∧
    (PyObj.int 3 ≠ PyObj.int 4 →
      (((CustomPathPickledObjectFilesystemIOManager.init "/b").handle_output
          "/c" ⟨"r2", "s2", "o2", "pl2", [("path", PyObj.str "f")]⟩
          (PyObj.int 4)
          ((CustomPathPickledObjectFilesystemIOManager.init "/b").handle_output
            "/c" ⟨"r1", "s1", "o1", "pl1", [("path", PyObj.str "f")]⟩
            (PyObj.int 3) ⟨[], []⟩).1).1).lookupFile
          ((CustomPathPickledObjectFilesystemIOManager.init "/b").get_path "f")
        ≠ some (PyObj.int 3)) :=
  overwrite_last_write_wins (PickledObjectFilesystemIOManager.init "/b")
    ⟨"r", "s", "o", "pl0", []⟩ ⟨"r", "s", "o", "pl", []⟩
    ⟨⟨"r", "s", "o", "pl1", []⟩⟩ rfl rfl (PyObj.int 1) (PyObj.int 2) ⟨[], []⟩
    (CustomPathPickledObjectFilesystemIOManager.init "/b") "/c"
    ⟨"r1", "s1", "o1", "pl1", [("path", PyObj.str "f")]⟩
    ⟨"r2", "s2", "o2", "pl2", [("path", PyObj.str "f")]⟩
    ⟨⟨"r3", "s3", "o3", "pl3", [("path", PyObj.str "f")]⟩⟩ "f" rfl rfl rfl
    (PyObj.int 3) (PyObj.int 4) ⟨[], []⟩

/-- **C9**: the custom variant's resolved location depends only on the
manager's base directory and the `path` metadata string: an output written
through one context is read back through any other context carrying the same
`path` metadata, regardless of its run id, step key, output name or pipeline
name. -/
theorem custom_path_identity_independent
    (cself : CustomPathPickledObjectFilesystemIOManager) (cwd : String)
    (c1 c2 : OutputContext) (p : String) (obj : PyObj) (fs : FS)
    (hp1 : metadataGet c1.metadata "path" = some (PyObj.str p))
    (hp2 : metadataGet c2.metadata "path" = some (PyObj.str p)) :
    (cself.handle_output cwd c1 obj fs).1.lookupFile (cself.get_path p) =
      some obj ∧
    (cself.load_input ⟨c2⟩ (cself.handle_output cwd c1 obj fs).1).2 =
      Except.ok obj := by
  have hl : (cself.handle_output cwd c1 obj fs).1.lookupFile
      (cself.get_path p) = some obj := by
    rw [custom_handle_output_ok cself cwd c1 obj fs p hp1]
    exact lookupFile_writeFile _ _ _
  refine ⟨hl, ?_⟩
  rw [custom_load_input_found cself ⟨c2⟩ _ p obj hp2 hl]

/-- Witness for `custom_path_identity_independent`: two contexts from
different runs sharing the `path` metadata entry. -/
theorem custom_path_identity_independent_witness :
    ((CustomPathPickledObjectFilesystemIOManager.init "/b").handle_output
        "/c" ⟨"run1", "s1", "o1", "pl1", [("path", PyObj.str "shared")]⟩
        (PyObj.int 9) ⟨[], []⟩).1.lookupFile
        ((CustomPathPickledObjectFilesystemIOManager.init "/b").get_path
          "shared") = some (PyObj.int 9) ∧
    ((CustomPathPickledObjectFilesystemIOManager.init "/b").load_input
        ⟨⟨"run2", "s2", "o2", "pl2", [("path", PyObj.str "shared")]⟩⟩
        ((CustomPathPickledObjectFilesystemIOManager.init "/b").handle_output
          "/c" ⟨"run1", "s1", "o1", "pl1", [("path", PyObj.str "shared")]⟩
          (PyObj.int 9) ⟨[], []⟩).1).2 = Except.ok (PyObj.int 9) :=
  custom_path_identity_independent
    (CustomPathPickledObjectFilesystemIOManager.init "/b") "/c"
    ⟨"run1", "s1", "o1", "pl1", [("path", PyObj.str "shared")]⟩
    ⟨"run2", "s2", "o2", "pl2", [("path", PyObj.str "shared")]⟩
    "shared" (PyObj.int 9) ⟨[], []⟩ rfl rfl

/-- **C2** counterexample: `get_path` is not injective on arbitrary distinct
(runId, stepKey, outputName) triples — a separator inside a component makes
two distinct identifiers resolve to the same path. -/
theorem auto_path_injectivity_cx :
    OutputContext.get_run_scoped_output_identifier
        ⟨"r", "s/t", "o", "pl", []⟩ ≠
      OutputContext.get_run_scoped_output_identifier
        ⟨"r/s", "t", "o", "pl", []⟩ ∧
    (PickledObjectFilesystemIOManager.init "b").get_path
        ⟨"r", "s/t", "o", "pl", []⟩ =
      (PickledObjectFilesystemIOManager.init "b").get_path
        ⟨"r/s", "t", "o", "pl", []⟩ := by
  constructor
  · decide
  · rfl

/-- **C2** (amended): `get_path` is deterministic, and for a fixed base
directory it is injective on identifier triples whose components are
nonempty and separator-free. -/
theorem auto_path_deterministic_injective_plain
    (self : PickledObjectFilesystemIOManager) (c1 c2 : OutputContext)
    (h1 : PlainSegment c1.run_id) (h2 : PlainSegment c1.step_key)
    (h3 : PlainSegment c1.name) (h4 : PlainSegment c2.run_id)
    (h5 : PlainSegment c2.step_key) (h6 : PlainSegment c2.name)
    (hpath : self.get_path c1 = self.get_path c2) :
    self.get_path c1 = self.get_path c1 ∧
    (c1.run_id = c2.run_id ∧ c1.step_key = c2.step_key ∧
      c1.name = c2.name) := by
  refine ⟨rfl, ?_⟩
  obtain ⟨r1ne, r1f⟩ := h1
  obtain ⟨s1ne, s1f⟩ := h2
  obtain ⟨o1ne, o1f⟩ := h3
  obtain ⟨r2ne, r2f⟩ := h4
  obtain ⟨s2ne, s2f⟩ := h5
  obtain ⟨o2ne, o2f⟩ := h6
  have hd := congrArg String.data hpath
  unfold PickledObjectFilesystemIOManager.get_path
    OutputContext.get_run_scoped_output_identifier at hd
  rw [autoPath_shape _ _ _ _ r1ne (head?_ne_sep r1f) (getLast?_ne_sep r1f)
        s1ne (head?_ne_sep s1f) (getLast?_ne_sep s1f) (head?_ne_sep o1f),
      autoPath_shape _ _ _ _ r2ne (head?_ne_sep r2f) (getLast?_ne_sep r2f)
        s2ne (head?_ne_sep s2f) (getLast?_ne_sep s2f) (head?_ne_sep o2f),
      joinTwo_data _ _ (head?_ne_sep r1f),
      joinTwo_data _ _ (head?_ne_sep r2f)] at hd
  simp only [List.append_assoc] at hd
  have hd' := List.append_cancel_left hd
  obtain ⟨e1, e2⟩ := sepSplit r1f r2f hd'
  obtain ⟨e3, e4⟩ := sepSplit s1f s2f e2
  exact ⟨string_data_inj e1, string_data_inj e3, string_data_inj e4⟩

/-- Witness for `auto_path_deterministic_injective_plain` on concrete
separator-free components. -/
theorem auto_path_deterministic_injective_plain_witness :
    (PickledObjectFilesystemIOManager.init "b").get_path
        ⟨"r", "s", "o", "pl", []⟩ =
      (PickledObjectFilesystemIOManager.init "b").get_path
        ⟨"r", "s", "o", "pl", []⟩ ∧
    (OutputContext.run_id ⟨"r", "s", "o", "pl", []⟩ =
        OutputContext.run_id ⟨"r", "s", "o", "pl2", []⟩ ∧
      OutputContext.step_key ⟨"r", "s", "o", "pl", []⟩ =
        OutputContext.step_key ⟨"r", "s", "o", "pl2", []⟩ ∧
      OutputContext.name ⟨"r", "s", "o", "pl", []⟩ =
        OutputContext.name ⟨"r", "s", "o", "pl2", []⟩) :=
  auto_path_deterministic_injective_plain
    (PickledObjectFilesystemIOManager.init "b")
    ⟨"r", "s", "o", "pl", []⟩ ⟨"r", "s", "o", "pl2", []⟩
    ⟨by decide, by decide⟩ ⟨by decide, by decide⟩ ⟨by decide, by decide⟩
    ⟨by decide, by decide⟩ ⟨by decide, by decide⟩ ⟨by decide, by decide⟩ rfl

/-- **C7** counterexample: the resolved path is not literally
`<baseDir>/<runId>/<stepKey>/<outputName>` for every identifier — a run id
beginning with a separator resets the join, discarding the base
directory. -/
theorem auto_layout_cx :
    (PickledObjectFilesystemIOManager.init "b").get_path
        ⟨"/r", "s", "o", "pl", []⟩ ≠
      "b" ++ "/" ++ "/r" ++ "/" ++ "s" ++ "/" ++ "o" := by
  decide

/-- **C7** (amended): when the base directory is nonempty and does not end
with a separator, and each identifier component is nonempty and neither
begins nor ends with a separator, the auto variant resolves, stores to, and
loads from exactly `<baseDir>/<runId>/<stepKey>/<outputName>`. -/
theorem auto_layout
    (self : PickledObjectFilesystemIOManager) (context : OutputContext)
    (obj : PyObj) (fs : FS)
    (hb : self.base_dir.data ≠ [])
    (hb2 : self.base_dir.data.getLast? ≠ some '/')
    (h1 : SepTrimmed context.run_id) (h2 : SepTrimmed context.step_key)
    (h3 : SepTrimmed context.name) :
    self.get_path context =
      self.base_dir ++ "/" ++ context.run_id ++ "/" ++ context.step_key ++
        "/" ++ context.name ∧
    (self.handle_output context obj fs).1.lookupFile
      (self.base_dir ++ "/" ++ context.run_id ++ "/" ++ context.step_key ++
        "/" ++ context.name) = some obj ∧
    (self.load_input ⟨context⟩ (self.handle_output context obj fs).1).2 =
      Except.ok obj := by
  obtain ⟨rne, rh, rl⟩ := h1
  obtain ⟨sne, sh, sl⟩ := h2
  obtain ⟨obne, obh, obl⟩ := h3
  have hpath : self.get_path context =
      self.base_dir ++ "/" ++ context.run_id ++ "/" ++ context.step_key ++
        "/" ++ context.name := by
    apply string_data_inj
    unfold PickledObjectFilesystemIOManager.get_path
      OutputContext.get_run_scoped_output_identifier
    rw [autoPath_shape _ _ _ _ rne rh rl sne sh sl obh,
        joinTwo_data_cons _ _ hb hb2 rh]
    simp [data_append, sep_data, List.append_assoc]
  have hstore : (self.handle_output context obj fs).1.lookupFile
      (self.get_path context) = some obj := by
    rw [handle_output_fs]
    exact lookupFile_writeFile _ _ _
  refine ⟨hpath, ?_, ?_⟩
  · rw [← hpath]
    exact hstore
  · rw [load_input_found self ⟨context⟩ _ obj hstore]

/-- Witness for `auto_layout`: the spec's concrete scenario with base
directory `/tmp/run` and identifier (`r1`, `s1`, `out`). -/
theorem auto_layout_witness :
    (PickledObjectFilesystemIOManager.init "/tmp/run").get_path
        ⟨"r1", "s1", "out", "pl", []⟩ =
      "/tmp/run" ++ "/" ++ "r1" ++ "/" ++ "s1" ++ "/" ++ "out" ∧
    ((PickledObjectFilesystemIOManager.init "/tmp/run").handle_output
        ⟨"r1", "s1", "out", "pl", []⟩ (PyObj.int 1) ⟨[], []⟩).1.lookupFile
        ("/tmp/run" ++ "/" ++ "r1" ++ "/" ++ "s1" ++ "/" ++ "out") =
      some (PyObj.int 1) ∧
    ((PickledObjectFilesystemIOManager.init "/tmp/run").load_input
        ⟨⟨"r1", "s1", "out", "pl", []⟩⟩
        ((PickledObjectFilesystemIOManager.init "/tmp/run").handle_output
          ⟨"r1", "s1", "out", "pl", []⟩ (PyObj.int 1) ⟨[], []⟩).1).2 =
      Except.ok (PyObj.int 1) :=
  auto_layout (PickledObjectFilesystemIOManager.init "/tmp/run")
    ⟨"r1", "s1", "out", "pl", []⟩ (PyObj.int 1) ⟨[], []⟩
    (by decide) (by decide)
    ⟨by decide, by decide, by decide⟩ ⟨by decide, by decide, by decide⟩
    ⟨by decide, by decide, by decide⟩


end FsIO
